import Mathlib

/-!
Verification of the Site-Survey-AI core against its specification.

The development shallowly embeds the survey-analysis pipeline
(`src/site_survey_ai/agents/survey_workflow.py`) and the similarity store
(`src/site_survey_ai/database/vector_store.py`).  External collaborators
(the multimodal model's `analyze_image`, the image processor's
`preprocess_image` / `get_image_embedding`) are modelled as oracle
functions supplied as parameters; the ChromaDB collection backing the
store is an external dependency, modelled from the spec's stated
semantics (nearest-neighbour retrieval with metadata equality filtering).
Python strings are embedded as Lean `String` / `List Char`; Python floats
are embedded as `ℚ`.
-/

namespace SiteSurvey

/-! ### Verdict extraction (validate_checklist_node parsing, survey_workflow.py lines 225-243) -/

/-- Python `str.upper` on the ASCII range, character by character. -/
def upperL (s : List Char) : List Char := s.map Char.toUpper

/-- Boolean prefix test on character lists. -/
def isPrefixOfB : List Char → List Char → Bool
  | [], _ => true
  | _ :: _, [] => false
  | a :: as, b :: bs => a == b && isPrefixOfB as bs

/-- Boolean contiguous-substring test: Python's `needle in hay`. -/
def containsSub (needle : List Char) : List Char → Bool
  | [] => isPrefixOfB needle []
  | c :: t => isPrefixOfB needle (c :: t) || containsSub needle t

/-- Case-insensitive prefix test (compares characters after uppercasing both). -/
def isPrefixOfCI : List Char → List Char → Bool
  | [], _ => true
  | _ :: _, [] => false
  | a :: as, b :: bs => a.toUpper == b.toUpper && isPrefixOfCI as bs

/-- Case-insensitive contiguous-substring test — the spec's
"compared case-insensitively, contains the pass marker". -/
def containsCI (needle : List Char) : List Char → Bool
  | [] => isPrefixOfCI needle []
  | c :: t => isPrefixOfCI needle (c :: t) || containsCI needle t

/-- The exact pass marker searched for by `validate_checklist_node`. -/
def passMarker : List Char := "STATUS: PASS".data

/-- Status parsing of `validate_checklist_node`:
`overall_status = "fail"` by default, set to `"pass"` iff
`"STATUS: PASS" in validation_result.upper()`. -/
def extractStatus (validation_result : String) : String :=
  if containsSub passMarker (upperL validation_result.data) then "pass" else "fail"

/-- Python `\s` on the ASCII range (whitespace class of the `re` module). -/
def isPySpace (c : Char) : Bool :=
  c == ' ' || c == '\t' || c == '\n' || c == '\r' || c == '\x0b' || c == '\x0c'

/-- The character class `[0-9.]` of the confidence regex. -/
def isNumChar (c : Char) : Bool := c.isDigit || c == '.'

/-- The literal part of the confidence regex `CONFIDENCE:\s*([0-9.]+)`. -/
def confMarker : List Char := "CONFIDENCE:".data

/-- Attempt to match `CONFIDENCE:\s*([0-9.]+)` at the start of `s`;
on success return the captured group (the maximal `[0-9.]+` run). -/
def matchConfAt (s : List Char) : Option (List Char) :=
  if isPrefixOfB confMarker s then
    let rest := (s.drop confMarker.length).dropWhile isPySpace
    let num := rest.takeWhile isNumChar
    if num.isEmpty then none else some num
  else none

/-- `re.search` semantics for the confidence regex: leftmost position at
which the whole pattern matches, scanning left to right. -/
def searchConf : List Char → Option (List Char)
  | [] => none
  | c :: t =>
    match matchConfAt (c :: t) with
    | some g => some g
    | none => searchConf t

/-- Numeric value of a digit string (most significant first). -/
def digitsVal (l : List Char) : ℕ :=
  l.foldl (fun n c => 10 * n + (c.toNat - 48)) 0

/-- Python `float()` restricted to strings drawn from `[0-9.]+`:
succeeds iff the string has at least one digit and at most one dot
(`"0.87"`, `"87"`, `".5"`, `"5."` succeed; `"."`, `"1.2.3"` raise
`ValueError`, modelled as `none`). -/
def pyFloatOfNum? (s : List Char) : Option ℚ :=
  if s.any Char.isDigit && s.count '.' ≤ 1 then
    let intPart := s.takeWhile (fun c => c ≠ '.')
    let fracPart := (s.dropWhile (fun c => c ≠ '.')).drop 1
    some ((digitsVal intPart : ℚ) + (digitsVal fracPart : ℚ) / (10 ^ fracPart.length))
  else none

/-- Confidence parsing of `validate_checklist_node`:
`confidence_score = 0.5` unless the regex matches and `float()` succeeds,
in which case the parsed value is taken.  The `try/except` around the
parse makes this total — modelled by the `Option.getD` default. -/
def extractConfidence (validation_result : String) : ℚ :=
  match searchConf validation_result.data with
  | none => 1/2
  | some g => (pyFloatOfNum? g).getD (1/2)

/-! ### Similarity store (vector_store.py)

The ChromaDB collection is modelled as a list of records; the wall-clock
`timestamp` metadata field is outside the embedding.  `collectionAdd` and
`collectionQuery` are the two operations of the external index. -/

/-- The metadata dictionary stored with each record
(`document_metadata` in `add_survey_record`: the caller-supplied
`{num_images, has_notes, confidence}` merged with
`survey_id`, `analysis_result` and `status`). -/
structure RecordMetadata where
  num_images : ℕ
  has_notes : Bool
  confidence : ℚ
  survey_id : String
  analysis_result : String
  status : String
deriving DecidableEq, Repr

/-- One persisted survey record (id, embedding, document, metadata). -/
structure SurveyRecord where
  survey_id : String
  embedding : List ℚ
  document : String
  metadata : RecordMetadata
deriving DecidableEq, Repr

/-- Squared Euclidean distance, ChromaDB's default `l2` metric. -/
def sqDist (a b : List ℚ) : ℚ := (List.zipWith (fun x y => (x - y) ^ 2) a b).sum

/-- Modelled from the spec: the underlying index's `collection.add`
with an explicit id — "re-adding the same id overwrites (store semantics
delegate to the underlying index — last write wins)". -/
def collectionAdd (store : List SurveyRecord) (r : SurveyRecord) : List SurveyRecord :=
  store.filter (fun x => x.survey_id ≠ r.survey_id) ++ [r]

/-- Modelled from the spec: the underlying index's `collection.query` —
at most `n_results` nearest neighbours of the query embedding by the
configured distance metric, restricted (when a `where` clause is given)
to records whose metadata `status` equals the filter value; fewer than
`n_results` qualifying records yield fewer results, never padding. -/
def collectionQuery (store : List SurveyRecord) (q : List ℚ) (n_results : ℕ)
    (status_filter : Option String) : List SurveyRecord :=
  let qualified :=
    match status_filter with
    | none => store
    | some s => store.filter (fun r => r.metadata.status == s)
  (qualified.insertionSort (fun a b => sqDist q a.embedding ≤ sqDist q b.embedding)).take n_results

/-- `VectorStore.add_survey_record` (vector_store.py lines 40-66):
builds `document_metadata` and adds one record keyed by `survey_id`,
with the analysis text as the document. -/
def add_survey_record (store : List SurveyRecord) (survey_id : String)
    (image_embeddings : List ℚ) (num_images : ℕ) (has_notes : Bool) (confidence : ℚ)
    (analysis_result : String) (status : String) : List SurveyRecord :=
  collectionAdd store
    ⟨survey_id, image_embeddings, analysis_result,
     ⟨num_images, has_notes, confidence, survey_id, analysis_result, status⟩⟩

/-- One entry of the list returned by `search_similar_surveys`. -/
structure SearchResult where
  survey_id : String
  analysis : String
  metadata : RecordMetadata
  similarity_score : ℚ
deriving DecidableEq, Repr

/-- `VectorStore.search_similar_surveys` (vector_store.py lines 68-97):
queries the collection and converts each hit, turning the distance into
a similarity score `1 - distance`. -/
def search_similar_surveys (store : List SurveyRecord) (query_embeddings : List ℚ)
    (n_results : ℕ) (status_filter : Option String) : List SearchResult :=
  (collectionQuery store query_embeddings n_results status_filter).map
    (fun r => ⟨r.survey_id, r.document, r.metadata, 1 - sqDist query_embeddings r.embedding⟩)

/-- The dictionary returned by `get_survey_stats`. -/
structure SurveyStats where
  total_surveys : ℕ
  pass_count : ℕ
  fail_count : ℕ
  pass_rate : ℚ
deriving DecidableEq, Repr

/-- `VectorStore.get_survey_stats` (vector_store.py lines 99-116):
`total` from `collection.count()`, pass/fail counts by scanning every
stored metadata, `pass_rate = pass_count / total if total > 0 else 0`. -/
def get_survey_stats (store : List SurveyRecord) : SurveyStats :=
  let total_count := store.length
  let pass_count := store.countP (fun r => r.metadata.status == "pass")
  let fail_count := store.countP (fun r => r.metadata.status == "fail")
  ⟨total_count, pass_count, fail_count,
   if total_count > 0 then (pass_count : ℚ) / (total_count : ℚ) else 0⟩

/-- `VectorStore.delete_survey` (vector_store.py lines 118-123). -/
def delete_survey (store : List SurveyRecord) (survey_id : String) : List SurveyRecord :=
  store.filter (fun r => r.survey_id ≠ survey_id)

/-! ### The survey pipeline (survey_workflow.py) -/

/-- The external capabilities consumed by the pipeline:
`ImageProcessor.preprocess_image`, `ImageProcessor.get_image_embedding`
and `MultimodalModel.analyze_image`.  `Image` stays abstract. -/
structure Oracles (Image : Type) where
  preprocess : Image → Image
  embed : Image → List ℚ
  analyze : Image → String → String

/-- One entry of `component_analyses`, built per image by
`analyze_components_node`. -/
structure ComponentAnalysis where
  image_index : ℕ
  analysis : String
  image_embedding : List ℚ
deriving DecidableEq, Repr

/-- The `similar_surveys` dictionary produced by
`retrieve_similar_surveys_node`. -/
structure SimilarSurveys where
  passing_examples : List SearchResult
  failing_examples : List SearchResult
deriving DecidableEq, Repr

/-- `SurveyState` (survey_workflow.py lines 23-32).  The LangGraph
annotation `Annotated[..., operator.add]` on `component_analyses` means
node updates are concatenated onto the existing list; all other fields
are overwritten by node updates. -/
structure SurveyState (Image : Type) where
  images : List Image
  text_notes : String
  survey_id : String
  component_analyses : List ComponentAnalysis
  similar_surveys : SimilarSurveys
  final_report : String
  overall_status : String
  confidence_score : ℚ

/-- The only runtime failure the embedded pipeline can exhibit:
a Python `IndexError` from evaluating `state["images"][0]` on an empty
list, tagged with the node in which it occurs. -/
inductive PipeError
  | indexError (node : String)
deriving DecidableEq, Repr

/-- The per-image analysis prompt of `analyze_components_node`
(literal text abbreviated; only the interpolation of `text_notes`
is load-bearing). -/
def analysisPrompt (text_notes : String) : String :=
  "Analyze this industrial/manufacturing equipment image for a site survey inspection. "
    ++ "Additional context: " ++ text_notes
    ++ " Please identify equipment type, condition of bolts and fasteners, wear, "
    ++ "damage, corrosion, overall condition, safety concerns."

/-- `process_images_node` (lines 79-87): preprocess every image and
replace `images` wholesale. -/
def process_images_node {Image : Type} (o : Oracles Image) (s : SurveyState Image) :
    SurveyState Image :=
  { s with images := s.images.map o.preprocess }

/-- `analyze_components_node` (lines 89-119): one analysis record per
image, in enumeration order, merged onto `component_analyses` by the
accumulator annotation. -/
def analyze_components_node {Image : Type} (o : Oracles Image) (s : SurveyState Image) :
    SurveyState Image :=
  let new := s.images.enum.map
    (fun p => ComponentAnalysis.mk p.1 (o.analyze p.2 (analysisPrompt s.text_notes)) (o.embed p.2))
  { s with component_analyses := s.component_analyses ++ new }

/-- `retrieve_similar_surveys_node` (lines 121-145): when
`component_analyses` is non-empty, query the store twice with the first
analysis's embedding — top-3 with `status_filter="pass"` and top-2 with
`status_filter="fail"`; otherwise both example lists are empty and the
store is never consulted. -/
def retrieve_similar_surveys_node {Image : Type} (store : List SurveyRecord)
    (s : SurveyState Image) : SurveyState Image :=
  match s.component_analyses with
  | [] => { s with similar_surveys := ⟨[], []⟩ }
  | a :: _ =>
    let query_embedding := a.image_embedding
    { s with similar_surveys :=
        ⟨search_similar_surveys store query_embedding 3 (some "pass"),
         search_similar_surveys store query_embedding 2 (some "fail")⟩ }

/-- The report prompt of `generate_report_node` (literal text
abbreviated; the interpolations are load-bearing). -/
def reportPrompt (analyses passing_context failing_context text_notes : String) : String :=
  "Based on the component analysis and historical survey data, generate a comprehensive "
    ++ "site survey report. CURRENT SURVEY ANALYSIS: " ++ analyses
    ++ " ADDITIONAL NOTES: " ++ text_notes
    ++ " HISTORICAL CONTEXT - PASSING SURVEYS: "
    ++ (if passing_context = "" then "No similar passing surveys found" else passing_context)
    ++ " HISTORICAL CONTEXT - FAILING SURVEYS: "
    ++ (if failing_context = "" then "No similar failing surveys found" else failing_context)
    ++ " Format as a professional inspection report."

/-- `generate_report_node` (lines 147-199): joins all analysis texts,
formats the top-2 passing/failing precedents as context, and grounds the
report-synthesis call on `state["images"][0]` — an `IndexError` when
`images` is empty. -/
def generate_report_node {Image : Type} (o : Oracles Image) (s : SurveyState Image) :
    Except PipeError (SurveyState Image) :=
  let analyses := String.intercalate "\n\n" (s.component_analyses.map (fun c => c.analysis))
  let passing_context := String.intercalate "\n"
    ((s.similar_surveys.passing_examples.take 2).map
      (fun r => "Similar passing survey: " ++ r.analysis))
  let failing_context := String.intercalate "\n"
    ((s.similar_surveys.failing_examples.take 2).map
      (fun r => "Similar failing survey: " ++ r.analysis))
  match s.images with
  | [] => .error (.indexError "generate_report")
  | im :: _ =>
    let report := o.analyze im (reportPrompt analyses passing_context failing_context s.text_notes)
    .ok { s with final_report := report }

/-- The validation prompt of `validate_checklist_node` (literal text
abbreviated; the interpolation of the report is load-bearing). -/
def validationPrompt (final_report : String) : String :=
  "Based on this inspection report, provide overall status, confidence score and "
    ++ "justification. Report: " ++ final_report
    ++ " Response format: STATUS: [PASS/FAIL] CONFIDENCE: [0.0-1.0] "
    ++ "JUSTIFICATION: [brief explanation]"

/-- `validate_checklist_node` (lines 201-243): grounds the validation
call on `state["images"][0]` (an `IndexError` when `images` is empty),
then parses the returned text with the fail-safe status default and the
0.5 confidence default. -/
def validate_checklist_node {Image : Type} (o : Oracles Image) (s : SurveyState Image) :
    Except PipeError (SurveyState Image) :=
  match s.images with
  | [] => .error (.indexError "validate_checklist")
  | im :: _ =>
    let validation_result := o.analyze im (validationPrompt s.final_report)
    .ok { s with
      overall_status := extractStatus validation_result,
      confidence_score := extractConfidence validation_result }

/-- The `initial_state` dictionary of `run_survey_analysis`
(lines 268-277).  Note `confidence_score` starts at `0.0`. -/
def mkInitialState {Image : Type} (images : List Image) (text_notes survey_id : String) :
    SurveyState Image :=
  { images := images
    text_notes := text_notes
    survey_id := survey_id
    component_analyses := []
    similar_surveys := ⟨[], []⟩
    final_report := ""
    overall_status := "fail"
    confidence_score := 0 }

/-- `run_survey_analysis` (lines 245-295): run the five nodes in graph
order on the initial state, then — only when `component_analyses` is
non-empty — persist one record keyed by `survey_id` with the first
analysis's embedding, the final report as document, the overall status,
and metadata `{num_images, has_notes, confidence}`.  Returns the final
state together with the store as left after the run. -/
def run_survey_analysis {Image : Type} (o : Oracles Image) (store : List SurveyRecord)
    (images : List Image) (text_notes : String) (survey_id : String) :
    Except PipeError (SurveyState Image × List SurveyRecord) := do
  let s0 : SurveyState Image := mkInitialState images text_notes survey_id
  let s1 := process_images_node o s0
  let s2 := analyze_components_node o s1
  let s3 := retrieve_similar_surveys_node store s2
  let s4 ← generate_report_node o s3
  let s5 ← validate_checklist_node o s4
  let store' :=
    match s5.component_analyses with
    | [] => store
    | a :: _ =>
      add_survey_record store survey_id a.image_embedding images.length
        (text_notes ≠ "") s5.confidence_score s5.final_report s5.overall_status
  pure (s5, store')

/-! ### Theorems: verdict extraction -/

theorem isPrefixOfCI_eq_upper (n h : List Char) :
    isPrefixOfCI n h = isPrefixOfB (upperL n) (upperL h) := by
  induction n generalizing h with
  | nil => cases h <;> rfl
  | cons a as ih =>
    cases h with
    | nil => rfl
    | cons b bs => simp [isPrefixOfCI, isPrefixOfB, upperL, ih bs]

theorem containsCI_eq_upper (n h : List Char) :
    containsCI n h = containsSub (upperL n) (upperL h) := by
  induction h with
  | nil =>
    have := isPrefixOfCI_eq_upper n []
    simpa [containsCI, containsSub, upperL] using this
  | cons c t ih =>
    simp [containsCI, containsSub, upperL, isPrefixOfCI_eq_upper, ih]

theorem upperL_passMarker : upperL passMarker = passMarker := by decide

/-- C1: Fail-safe verdict — `extractStatus` yields `"pass"` iff the
validation text contains `"STATUS: PASS"` case-insensitively; every
other text, including the empty string, `"STATUS: FAIL"`,
`"STATUS: MAYBE"` and marker-free text, yields `"fail"`. -/
theorem extractStatus_pass_iff_marker :
    (∀ t : String, extractStatus t = "pass" ↔ containsCI passMarker t.data = true) ∧
    (∀ t : String, extractStatus t = "pass" ∨ extractStatus t = "fail") ∧
    extractStatus "" = "fail" ∧
    extractStatus "STATUS: FAIL" = "fail" ∧
    extractStatus "STATUS: MAYBE" = "fail" ∧
    extractStatus "no status marker at all" = "fail" := by
  refine ⟨?_, ?_, by decide, by decide, by decide, by decide⟩
  · intro t
    rw [containsCI_eq_upper, upperL_passMarker]
    unfold extractStatus
    cases hc : containsSub passMarker (upperL t.data) <;> simp
  · intro t
    unfold extractStatus
    cases containsSub passMarker (upperL t.data) <;> simp

/-- Closed instantiation of `extractStatus_pass_iff_marker`: the
case-insensitive marker test agrees with the extractor on a concrete
mixed-case input. -/
theorem extractStatus_pass_iff_marker_witness :
    extractStatus "Overall Status: Pass indeed" = "pass" :=
  (extractStatus_pass_iff_marker.1 "Overall Status: Pass indeed").mpr (by decide)

theorem searchConf_087 : searchConf "CONFIDENCE: 0.87".data = some ['0', '.', '8', '7'] := by
  decide

theorem extractConfidence_eval_087 : extractConfidence "CONFIDENCE: 0.87" = 87/100 := by
  unfold extractConfidence
  rw [searchConf_087]
  simp [pyFloatOfNum?, digitsVal]
  norm_num

/-- C6: Confidence extraction is total and defaults correctly —
`"CONFIDENCE: 0.87"` yields exactly `0.87`; a text in which the
confidence pattern finds no match yields exactly `0.5`; a matched but
malformed numeric group also yields `0.5`; and on every input the
extraction returns either the default or the parsed value (it is a total
function — the embedded counterpart of "no exception escapes").  Status
determination is a separate function of the same text
(`extractStatus`), so a confidence fallback never affects it. -/
theorem extractConfidence_spec :
    extractConfidence "CONFIDENCE: 0.87" = 87/100 ∧
    (∀ t : String, searchConf t.data = none → extractConfidence t = 1/2) ∧
    (∀ t : String, ∀ g, searchConf t.data = some g → pyFloatOfNum? g = none →
      extractConfidence t = 1/2) ∧
    (∀ t : String, extractConfidence t = 1/2 ∨
      ∃ g v, searchConf t.data = some g ∧ pyFloatOfNum? g = some v ∧
        extractConfidence t = v) := by
  refine ⟨extractConfidence_eval_087, ?_, ?_, ?_⟩
  · intro t h
    unfold extractConfidence
    rw [h]
  · intro t g hg hp
    unfold extractConfidence
    rw [hg]
    simp [hp]
  · intro t
    unfold extractConfidence
    cases hs : searchConf t.data with
    | none => left; rfl
    | some g =>
      cases hp : pyFloatOfNum? g with
      | none => left; simp [hp]
      | some v => right; exact ⟨g, v, rfl, hp, by simp [hp]⟩

/-- Closed instantiation of `extractConfidence_spec`: a marker-free text
and a malformed numeric group both fall back to `0.5`. -/
theorem extractConfidence_spec_witness :
    extractConfidence "no numbers here" = 1/2 ∧
    extractConfidence "CONFIDENCE: .." = 1/2 :=
  ⟨extractConfidence_spec.2.1 "no numbers here" (by decide),
   extractConfidence_spec.2.2.1 "CONFIDENCE: .." ['.', '.'] (by decide) (by decide)⟩

/-- C10: Asymmetric case handling — the status test uppercases the text
before searching (so `"status: pass"` passes), while the confidence
regex is matched case-sensitively against the original text (so
`"confidence: 0.9"` finds no match and the default `0.5` survives);
with the marker in upper case the same value `0.9` is extracted. -/
theorem case_asymmetry_concrete :
    extractStatus "status: pass\nconfidence: 0.9" = "pass" ∧
    extractConfidence "status: pass\nconfidence: 0.9" = 1/2 ∧
    searchConf ("status: pass\nconfidence: 0.9").data = none ∧
    extractConfidence "status: pass\nCONFIDENCE: 0.9" = 9/10 := by
  have hnone : searchConf ("status: pass\nconfidence: 0.9").data = none := by decide
  have hsome : searchConf ("status: pass\nCONFIDENCE: 0.9").data = some ['0', '.', '9'] := by
    decide
  refine ⟨by decide, ?_, hnone, ?_⟩
  · unfold extractConfidence
    rw [hnone]
  · unfold extractConfidence
    rw [hsome]
    simp [pyFloatOfNum?, digitsVal]

/-! ### Theorems: similarity store -/

/-- C8: Filtered queries — with a `status_filter`, every returned
record's stored status equals the filter value, and the result holds
`min k (number of qualifying records)` entries: at most `k`, exactly the
smaller number when fewer qualify, with no padding and no error. -/
theorem search_filter_spec (store : List SurveyRecord) (q : List ℚ) (k : ℕ) (s : String) :
    (∀ r ∈ search_similar_surveys store q k (some s), r.metadata.status = s) ∧
    (search_similar_surveys store q k (some s)).length =
      min k (store.countP (fun r => r.metadata.status == s)) ∧
    (search_similar_surveys store q k (some s)).length ≤ k := by
  have hperm := List.perm_insertionSort
    (fun a b => sqDist q a.embedding ≤ sqDist q b.embedding)
    (store.filter (fun r => r.metadata.status == s))
  have hlen : (search_similar_surveys store q k (some s)).length =
      min k (store.countP (fun r => r.metadata.status == s)) := by
    simp [search_similar_surveys, collectionQuery, hperm.length_eq,
      ← List.countP_eq_length_filter]
  refine ⟨?_, hlen, ?_⟩
  · intro r hr
    simp only [search_similar_surveys, collectionQuery, List.mem_map] at hr
    obtain ⟨x, hx, rfl⟩ := hr
    have hx1 : x ∈ (store.filter
        (fun r => r.metadata.status == s)).insertionSort
        (fun a b => sqDist q a.embedding ≤ sqDist q b.embedding) :=
      List.mem_of_mem_take hx
    have hx2 := hperm.mem_iff.mp hx1
    have hx3 := List.of_mem_filter hx2
    simpa using hx3
  · rw [hlen]; exact Nat.min_le_left _ _

/-- A small concrete store population: two passing records and one
failing record. -/
def demoStore : List SurveyRecord :=
  [⟨"p1", [0], "doc p1", ⟨1, false, 9/10, "p1", "doc p1", "pass"⟩⟩,
   ⟨"f1", [1], "doc f1", ⟨1, true, 4/10, "f1", "doc f1", "fail"⟩⟩,
   ⟨"p2", [2], "doc p2", ⟨2, false, 8/10, "p2", "doc p2", "pass"⟩⟩]

/-- Closed instantiation of `search_filter_spec`: a `k = 5` query
against a store with only two qualifying `"pass"` records returns
exactly two results, all of them passing. -/
theorem search_filter_spec_witness :
    ((∀ r ∈ search_similar_surveys demoStore [0] 5 (some "pass"), r.metadata.status = "pass") ∧
      (search_similar_surveys demoStore [0] 5 (some "pass")).length =
        min 5 (demoStore.countP (fun r => r.metadata.status == "pass")) ∧
      (search_similar_surveys demoStore [0] 5 (some "pass")).length ≤ 5) ∧
    (search_similar_surveys demoStore [0] 5 (some "pass")).length = 2 := by
  have h := search_filter_spec demoStore [0] 5 "pass"
  refine ⟨h, ?_⟩
  rw [h.2.1]
  decide

/-- C9: Store statistics — counts are recomputed by scanning all stored
metadata (hence agree with the scan of any current contents, also after
a deletion, which is itself a pure filter of the records), `pass_rate`
equals `pass_count / total` whenever `total` is positive, and the empty
store yields all-zero statistics with `pass_rate` exactly `0` — no
division error and no NaN, the zero branch being explicit. -/
theorem get_survey_stats_spec (store : List SurveyRecord) :
    (get_survey_stats store).total_surveys = store.length ∧
    (get_survey_stats store).pass_count =
      store.countP (fun r => r.metadata.status == "pass") ∧
    (get_survey_stats store).fail_count =
      store.countP (fun r => r.metadata.status == "fail") ∧
    (0 < store.length →
      (get_survey_stats store).pass_rate =
        ((store.countP (fun r => r.metadata.status == "pass") : ℚ) / (store.length : ℚ))) ∧
    (∀ sid, get_survey_stats (delete_survey store sid) =
      get_survey_stats (store.filter (fun r => r.survey_id ≠ sid))) ∧
    get_survey_stats [] = ⟨0, 0, 0, 0⟩ := by
  refine ⟨rfl, rfl, rfl, ?_, fun _ => rfl, rfl⟩
  intro h
  simp [get_survey_stats, h]

/-- Closed instantiation of `get_survey_stats_spec`: on the three-record
demo store the pass rate evaluates to `2/3`. -/
theorem get_survey_stats_spec_witness :
    (get_survey_stats demoStore).pass_rate = 2/3 := by
  have h := (get_survey_stats_spec demoStore).2.2.2.1 (by decide)
  have hc : demoStore.countP (fun r => r.metadata.status == "pass") = 2 := by decide
  have hl : demoStore.length = 3 := by decide
  rw [h, hc, hl]
  norm_num

/-! ### Theorems: the pipeline -/

/-- C5: The RetrieveSimilar stage — with a non-empty
`component_analyses` the node queries the store with exactly the first
analysis's embedding (no averaging), issuing the top-3 `"pass"`-filtered
and top-2 `"fail"`-filtered queries, and stores them as
`passing_examples` / `failing_examples`; with empty `component_analyses`
both lists are empty and the result does not depend on the store at all
(no query is issued). -/
theorem retrieve_similar_spec {Image : Type} (store : List SurveyRecord)
    (s : SurveyState Image) :
    (∀ a rest, s.component_analyses = a :: rest →
      (retrieve_similar_surveys_node store s).similar_surveys =
        ⟨search_similar_surveys store a.image_embedding 3 (some "pass"),
         search_similar_surveys store a.image_embedding 2 (some "fail")⟩) ∧
    (s.component_analyses = [] →
      (retrieve_similar_surveys_node store s).similar_surveys = ⟨[], []⟩ ∧
      ∀ store2 : List SurveyRecord,
        retrieve_similar_surveys_node store s = retrieve_similar_surveys_node store2 s) := by
  constructor
  · intro a rest h
    simp only [retrieve_similar_surveys_node]
    rw [h]
  · intro h
    constructor
    · simp only [retrieve_similar_surveys_node]
      rw [h]
    · intro store2
      simp only [retrieve_similar_surveys_node]
      rw [h]

/-- A one-analysis state used to instantiate the retrieval theorem. -/
def demoAnalysis : ComponentAnalysis := ⟨0, "analysis 0", [0]⟩

/-- A concrete pipeline state holding `demoAnalysis`. -/
def demoState : SurveyState ℕ :=
  ⟨[5], "notes", "s-demo", [demoAnalysis], ⟨[], []⟩, "", "fail", 0⟩

/-- Closed instantiation of `retrieve_similar_spec` on `demoState` and
`demoStore`. -/
theorem retrieve_similar_spec_witness :
    (retrieve_similar_surveys_node demoStore demoState).similar_surveys =
      ⟨search_similar_surveys demoStore demoAnalysis.image_embedding 3 (some "pass"),
       search_similar_surveys demoStore demoAnalysis.image_embedding 2 (some "fail")⟩ :=
  (retrieve_similar_spec demoStore demoState).1 demoAnalysis [] rfl

/-- The per-image analysis record built for position `pr.1`, image
`pr.2`, under notes `notes`. -/
def mkAnalysis {Image : Type} (o : Oracles Image) (notes : String) (pr : ℕ × Image) :
    ComponentAnalysis :=
  ComponentAnalysis.mk pr.1 (o.analyze pr.2 (analysisPrompt notes)) (o.embed pr.2)

/-- Full characterization of a run on a non-empty image list: it
succeeds, `component_analyses` is the enumeration of the preprocessed
images, the report and verdict come from the model calls grounded on the
first preprocessed image, and the returned store is the input store with
exactly the persisted record added. -/
theorem run_characterization {Image : Type} (o : Oracles Image) (store : List SurveyRecord)
    (i : Image) (rest : List Image) (notes sid : String) :
    ∃ fin store' rp,
      run_survey_analysis o store (i :: rest) notes sid = .ok (fin, store') ∧
      fin.component_analyses =
        ((i :: rest).map o.preprocess).enum.map (mkAnalysis o notes) ∧
      fin.final_report = o.analyze (o.preprocess i) rp ∧
      fin.overall_status =
        extractStatus (o.analyze (o.preprocess i) (validationPrompt fin.final_report)) ∧
      fin.confidence_score =
        extractConfidence (o.analyze (o.preprocess i) (validationPrompt fin.final_report)) ∧
      store' = add_survey_record store sid (o.embed (o.preprocess i)) (i :: rest).length
        (notes ≠ "") fin.confidence_score fin.final_report fin.overall_status :=
  ⟨_, _, _, rfl, rfl, rfl, rfl, rfl, rfl⟩

/-- C2: One analysis per image — for non-empty `images` the run
completes, `component_analyses` has exactly one record per image, their
`image_index` values are `0, 1, ...` in order (appended in image-index
order), the accumulator annotation only ever appends (the incoming
`component_analyses` is a prefix of the node's output, so earlier
entries are never removed or reordered), and — granted the external
`analyze` capability returns non-empty text, the only source of the
report — `final_report` is non-empty. -/
theorem run_one_analysis_per_image {Image : Type} (o : Oracles Image)
    (store : List SurveyRecord) (images : List Image) (notes sid : String)
    (hne : images ≠ []) (han : ∀ im p, o.analyze im p ≠ "") :
    (∀ s : SurveyState Image,
      s.component_analyses <+: (analyze_components_node o s).component_analyses) ∧
    ∃ fin store', run_survey_analysis o store images notes sid = .ok (fin, store') ∧
      fin.component_analyses.length = images.length ∧
      fin.component_analyses.map (fun c => c.image_index) = List.range images.length ∧
      fin.final_report ≠ "" := by
  constructor
  · intro s
    exact ⟨_, rfl⟩
  · obtain ⟨i, rest, rfl⟩ := List.exists_cons_of_ne_nil hne
    obtain ⟨fin, store', rp, hrun, hca, hfr, -, -, -⟩ :=
      run_characterization o store i rest notes sid
    refine ⟨fin, store', hrun, ?_, ?_, ?_⟩
    · rw [hca]
      simp
    · rw [hca, List.map_map]
      have hcomp : ((fun c : ComponentAnalysis => c.image_index) ∘ mkAnalysis o notes) =
          Prod.fst := rfl
      rw [hcomp, List.enum_map_fst, List.length_map]
    · rw [hfr]
      exact han _ _

/-- The constant oracle set used for concrete runs: identity
preprocessing, singleton embeddings, and a fixed model answer carrying a
pass marker and a confidence value. -/
def sampleOracles : Oracles ℕ :=
  ⟨id, fun n => [(n : ℚ)], fun _ _ => "STATUS: PASS\nCONFIDENCE: 0.9"⟩

/-- Closed instantiation of `run_one_analysis_per_image`: a two-image
run with the constant oracles. -/
theorem run_one_analysis_per_image_witness :
    (∀ s : SurveyState ℕ,
      s.component_analyses <+: (analyze_components_node sampleOracles s).component_analyses) ∧
    ∃ fin store', run_survey_analysis sampleOracles [] [7, 8] "" "s1" = .ok (fin, store') ∧
      fin.component_analyses.length = ([7, 8] : List ℕ).length ∧
      fin.component_analyses.map (fun c => c.image_index) =
        List.range ([7, 8] : List ℕ).length ∧
      fin.final_report ≠ "" :=
  run_one_analysis_per_image sampleOracles [] [7, 8] "" "s1" (by decide)
    (fun _ _ => by
      show ("STATUS: PASS\nCONFIDENCE: 0.9" : String) ≠ ""
      decide)

/-- C3: The code crashes on empty input — with no images, preprocessing,
component analysis and retrieval all pass through, but
`generate_report_node` unconditionally evaluates `state["images"][0]`
and raises `IndexError`; the run aborts instead of returning the
default-fail result the spec requires. -/
theorem run_empty_images_index_error :
    run_survey_analysis sampleOracles demoStore ([] : List ℕ) "check bolts" "s-empty" =
      .error (.indexError "generate_report") := rfl

theorem collectionAdd_lookup (store : List SurveyRecord) (r : SurveyRecord) :
    (collectionAdd store r).filter (fun x => x.survey_id == r.survey_id) = [r] := by
  have hfalse : ∀ x : SurveyRecord,
      ((x.survey_id == r.survey_id) && (decide (x.survey_id ≠ r.survey_id))) = false := by
    intro x
    by_cases h : x.survey_id = r.survey_id <;> simp [h]
  simp [collectionAdd, List.filter_append, List.filter_filter, hfalse]

/-- C4 counterexample: on empty images — the only way a run ends with
`component_analyses` empty — the pipeline raises an `IndexError` in
report generation, so the claim's "the run still returns a result" is
false: there is no result at all. -/
theorem persist_empty_no_result_cex :
    (run_survey_analysis sampleOracles demoStore ([] : List ℕ) "" "s-none").isOk = false :=
  rfl

/-- C4 (amended): for every run that completes — equivalently, every run
on non-empty images — exactly one `SurveyRecord` is persisted, keyed by
`survey_id`, with embedding `component_analyses[0].image_embedding`,
document `final_report`, status `overall_status` and metadata
`{num_images, has_notes, confidence}`; runs in which
`component_analyses` would stay empty abort in report generation before
persistence, so no record is persisted but no result is returned
either. -/
theorem persist_record_spec {Image : Type} (o : Oracles Image) (store : List SurveyRecord)
    (images : List Image) (notes sid : String) (hne : images ≠ []) :
    (∃ fin store', run_survey_analysis o store images notes sid = .ok (fin, store') ∧
      ∃ a restA, fin.component_analyses = a :: restA ∧
        store' = add_survey_record store sid a.image_embedding images.length (notes ≠ "")
          fin.confidence_score fin.final_report fin.overall_status ∧
        store'.filter (fun x => x.survey_id == sid) =
          [⟨sid, a.image_embedding, fin.final_report,
            ⟨images.length, decide (notes ≠ ""), fin.confidence_score, sid,
             fin.final_report, fin.overall_status⟩⟩]) ∧
    (∀ (notes2 sid2 : String) (store2 : List SurveyRecord),
      run_survey_analysis o store2 ([] : List Image) notes2 sid2 =
        .error (.indexError "generate_report")) := by
  refine ⟨?_, fun notes2 sid2 store2 => rfl⟩
  obtain ⟨i, rest, rfl⟩ := List.exists_cons_of_ne_nil hne
  obtain ⟨fin, store', rp, hrun, hca, hfr, hst, hcf, hstore⟩ :=
    run_characterization o store i rest notes sid
  refine ⟨fin, store', hrun, mkAnalysis o notes (0, o.preprocess i),
    (List.enumFrom 1 (rest.map o.preprocess)).map (mkAnalysis o notes), ?_, ?_, ?_⟩
  · rw [hca]
    rfl
  · exact hstore
  · rw [hstore]
    exact collectionAdd_lookup store
      ⟨sid, (mkAnalysis o notes (0, o.preprocess i)).image_embedding, fin.final_report,
       ⟨(i :: rest).length, decide (notes ≠ ""), fin.confidence_score, sid,
        fin.final_report, fin.overall_status⟩⟩

/-- Closed instantiation of `persist_record_spec`: a one-image run with
the constant oracles persists exactly one record under the given id. -/
theorem persist_record_spec_witness :
    (∃ fin store',
        run_survey_analysis sampleOracles [] [3] "n" "s4" = .ok (fin, store') ∧
      ∃ a restA, fin.component_analyses = a :: restA ∧
        store' = add_survey_record [] "s4" a.image_embedding ([3] : List ℕ).length
          (("n" : String) ≠ "") fin.confidence_score fin.final_report fin.overall_status ∧
        store'.filter (fun x => x.survey_id == "s4") =
          [⟨"s4", a.image_embedding, fin.final_report,
            ⟨([3] : List ℕ).length, decide (("n" : String) ≠ ""), fin.confidence_score,
             "s4", fin.final_report, fin.overall_status⟩⟩]) ∧
    (∀ (notes2 sid2 : String) (store2 : List SurveyRecord),
      run_survey_analysis sampleOracles store2 ([] : List ℕ) notes2 sid2 =
        .error (.indexError "generate_report")) :=
  persist_record_spec sampleOracles [] [3] "n" "s4" (by decide)

/-- Oracles whose model answer carries an out-of-range confidence. -/
def oracles42 : Oracles ℕ := ⟨id, fun n => [(n : ℚ)], fun _ _ => "CONFIDENCE: 42"⟩

theorem extractConfidence_42 : extractConfidence "CONFIDENCE: 42" = 42 := by
  have hs : searchConf "CONFIDENCE: 42".data = some ['4', '2'] := by decide
  unfold extractConfidence
  rw [hs]
  simp [pyFloatOfNum?, digitsVal]

/-- C7 counterexample: the workflow's initial state sets
`confidence_score` to `0.0`, not the claimed `0.5`; and a run whose
validation text reads `"CONFIDENCE: 42"` ends with
`confidence_score = 42`, outside `[0.0, 1.0]` — the extracted value is
not clamped. -/
theorem confidence_invariant_cex :
    (mkInitialState ([0] : List ℕ) "" "s7").confidence_score ≠ 1/2 ∧
    ∃ fin store', run_survey_analysis oracles42 [] [(0 : ℕ)] "" "s7" = .ok (fin, store') ∧
      fin.confidence_score = 42 ∧ ¬ fin.confidence_score ≤ 1 := by
  constructor
  · show (0 : ℚ) ≠ 1/2
    norm_num
  · obtain ⟨fin, store', rp, hrun, hca, hfr, hst, hcf, hstore⟩ :=
      run_characterization oracles42 [] (0 : ℕ) [] "" "s7"
    have h42 : fin.confidence_score = 42 := by
      rw [hcf]
      show extractConfidence "CONFIDENCE: 42" = 42
      exact extractConfidence_42
    refine ⟨fin, store', hrun, h42, ?_⟩
    rw [h42]
    norm_num

/-- C7 (amended): `confidence_score` starts at `0.0` in the run's
initial state (the validation node's local default is `0.5`, taken
exactly when the confidence pattern fails to match or parse); a parsed
confidence is adopted verbatim, with no clamping to `[0.0, 1.0]`. -/
theorem confidence_defaults_spec {Image : Type} (images : List Image) (notes sid : String) :
    (mkInitialState images notes sid).confidence_score = 0 ∧
    (∀ t : String, searchConf t.data = none → extractConfidence t = 1/2) ∧
    (∀ (t : String) (g : List Char) (v : ℚ), searchConf t.data = some g →
      pyFloatOfNum? g = some v → extractConfidence t = v) := by
  refine ⟨rfl, ?_, ?_⟩
  · intro t h
    unfold extractConfidence
    rw [h]
  · intro t g v hg hv
    unfold extractConfidence
    rw [hg]
    simp [hv]

/-- Closed instantiation of `confidence_defaults_spec`: zero initial
confidence and the 0.5 fallback on a marker-free text. -/
theorem confidence_defaults_spec_witness :
    (mkInitialState ([] : List ℕ) "" "w7").confidence_score = 0 ∧
    extractConfidence "no conf" = 1/2 :=
  ⟨(confidence_defaults_spec ([] : List ℕ) "" "w7").1,
   (confidence_defaults_spec ([] : List ℕ) "" "w7").2.1 "no conf" (by decide)⟩

end SiteSurvey
